import Mathlib

/-!
Shallow embedding of the arrakis repository, a Rust client for the Dune
Analytics query-execution API: the data model of src/types.rs, the error
type of src/error.rs, and the lifecycle tracker described by the
specification.  Rust machine integers (u32, u64) are embedded as Nat: the
code only stores and prints them, it never does arithmetic on them, so no
overflow is reachable.  serde (de)serialization is embedded over an explicit
JSON value type.
-/

namespace Arrakis

/-- JSON values, the wire format handled by the serde collaborator. -/
inductive Json where
  | null
  | bool (b : Bool)
  | num (n : Nat)
  | str (s : String)
  | arr (elems : List Json)
  | obj (fields : List (String × Json))

/-- State of a query execution (src/types.rs, enum ExecutionState). -/
inductive ExecutionState where
  | Pending
  | Executing
  | Completed
  | Failed
  | Cancelled
deriving DecidableEq

namespace ExecutionState

/-- Embeds ExecutionState::is_terminal (src/types.rs lines 91-96). -/
def is_terminal : ExecutionState → Bool
  | Completed => true
  | Failed => true
  | Cancelled => true
  | _ => false

/-- Embeds ExecutionState::is_success (src/types.rs lines 99-101). -/
def is_success : ExecutionState → Bool
  | Completed => true
  | _ => false

/-- The serde rename tag each ExecutionState variant serializes to
(src/types.rs lines 66-87). -/
def toWireTag : ExecutionState → String
  | Pending => "QUERY_STATE_PENDING"
  | Executing => "QUERY_STATE_EXECUTING"
  | Completed => "QUERY_STATE_COMPLETED"
  | Failed => "QUERY_STATE_FAILED"
  | Cancelled => "QUERY_STATE_CANCELLED"

/-- Deserialization of an ExecutionState from a wire string: the serde
derive accepts exactly the five rename tags (src/types.rs lines 66-87). -/
def fromWireTag (tag : String) : Option ExecutionState :=
  if tag = "QUERY_STATE_PENDING" then some Pending
  else if tag = "QUERY_STATE_EXECUTING" then some Executing
  else if tag = "QUERY_STATE_COMPLETED" then some Completed
  else if tag = "QUERY_STATE_FAILED" then some Failed
  else if tag = "QUERY_STATE_CANCELLED" then some Cancelled
  else none

end ExecutionState

/-- A query parameter (src/types.rs, struct QueryParameter). -/
structure QueryParameter where
  key : String
  param_type : String
  value : String
deriving DecidableEq

/-- serde Serialize for QueryParameter: the fields in declaration order,
with param_type emitted under the renamed JSON key "type"
(src/types.rs lines 32-43). -/
def QueryParameter.serialize (p : QueryParameter) : List (String × Json) :=
  [("key", Json.str p.key), ("type", Json.str p.param_type),
   ("value", Json.str p.value)]

/-- First value bound to a key in a decoded JSON object (serde field lookup). -/
def lookupField (fields : List (String × Json)) (k : String) : Option Json :=
  match fields with
  | [] => none
  | (k', v) :: rest => if k' = k then some v else lookupField rest k

/-- serde decode of a u64 (or u32) field. -/
def decodeU64 : Json → Option Nat
  | Json.num n => some n
  | _ => none

/-- serde decode of a String field. -/
def decodeString : Json → Option String
  | Json.str s => some s
  | _ => none

/-- serde decode of a Vec of String field. -/
def decodeStringList : Json → Option (List String)
  | Json.arr xs => xs.mapM decodeString
  | _ => none

/-- serde decode of a Vec of String field under serde(default): an absent
field becomes the Default value, the empty list. -/
def decodeDefaultStringList : Option Json → Option (List String)
  | none => some []
  | some v => decodeStringList v

/-- serde decode of an Option of u64 field under serde(default): an absent
field and an explicit null both give none, a number gives some. -/
def decodeOptU64 : Option Json → Option (Option Nat)
  | none => some none
  | some Json.null => some none
  | some (Json.num n) => some (some n)
  | some _ => none

/-- serde decode of an Option of String field under serde(default). -/
def decodeOptString : Option Json → Option (Option String)
  | none => some none
  | some Json.null => some none
  | some (Json.str s) => some (some s)
  | some _ => none

/-- Metadata about query results (src/types.rs, struct ResultMetadata). -/
structure ResultMetadata where
  column_names : List String
  column_types : List String
  total_row_count : Nat
  datapoint_count : Nat
  result_set_bytes : Option Nat
  pending_time_millis : Option Nat
  execution_time_millis : Option Nat
deriving DecidableEq

/-- serde Deserialize for ResultMetadata (src/types.rs lines 139-165):
column_names, total_row_count and datapoint_count are required;
column_types is a plain Vec of String under serde(default), so an absent
field becomes the empty list; the remaining fields are Option under
serde(default). -/
def decodeResultMetadata : Json → Option ResultMetadata
  | Json.obj fs => do
    let names ← lookupField fs "column_names" >>= decodeStringList
    let types ← decodeDefaultStringList (lookupField fs "column_types")
    let total ← lookupField fs "total_row_count" >>= decodeU64
    let dp ← lookupField fs "datapoint_count" >>= decodeU64
    let bytes ← decodeOptU64 (lookupField fs "result_set_bytes")
    let ptm ← decodeOptU64 (lookupField fs "pending_time_millis")
    let etm ← decodeOptU64 (lookupField fs "execution_time_millis")
    some ⟨names, types, total, dp, bytes, ptm, etm⟩
  | _ => none

/-- Response from getting execution status (src/types.rs, struct
ExecutionStatusResponse). -/
structure ExecutionStatusResponse where
  execution_id : String
  query_id : Option Nat
  state : ExecutionState
  submitted_at : Option String
  execution_started_at : Option String
  execution_ended_at : Option String
  expires_at : Option String
  queue_position : Option Nat
deriving DecidableEq

/-- serde decode of an ExecutionState field from its wire tag. -/
def decodeExecutionState : Json → Option ExecutionState
  | Json.str s => ExecutionState.fromWireTag s
  | _ => none

/-- serde Deserialize for ExecutionStatusResponse (src/types.rs lines
104-136): execution_id and state are required, every other field is Option
under serde(default). -/
def decodeExecutionStatusResponse : Json → Option ExecutionStatusResponse
  | Json.obj fs => do
    let eid ← lookupField fs "execution_id" >>= decodeString
    let qid ← decodeOptU64 (lookupField fs "query_id")
    let st ← lookupField fs "state" >>= decodeExecutionState
    let sub ← decodeOptString (lookupField fs "submitted_at")
    let est ← decodeOptString (lookupField fs "execution_started_at")
    let een ← decodeOptString (lookupField fs "execution_ended_at")
    let expAt ← decodeOptString (lookupField fs "expires_at")
    let qp ← decodeOptU64 (lookupField fs "queue_position")
    some ⟨eid, qid, st, sub, est, een, expAt, qp⟩
  | _ => none

/-- Options for fetching results (src/types.rs, struct ResultOptions). -/
structure ResultOptions where
  limit : Option Nat
  offset : Option Nat
  sort_by : Option String
  order : Option String
  columns : Option (List String)
  filters : Option String
deriving DecidableEq

namespace ResultOptions

/-- Embeds the derived Default instance: every Option field defaults to
none. -/
def defaultOptions : ResultOptions :=
  { limit := none, offset := none, sort_by := none, order := none,
    columns := none, filters := none }

/-- Embeds ResultOptions::new (src/types.rs lines 242-244), which returns
Self::default(). -/
def new : ResultOptions := defaultOptions

/-- Embeds the builder method ResultOptions::limit (src/types.rs lines
247-250); renamed because in Lean the structure projection takes that name. -/
def setLimit (o : ResultOptions) (l : Nat) : ResultOptions :=
  { o with limit := some l }

/-- Embeds the builder method ResultOptions::offset (src/types.rs lines
253-256). -/
def setOffset (o : ResultOptions) (n : Nat) : ResultOptions :=
  { o with offset := some n }

/-- Embeds the builder method ResultOptions::sort_by (src/types.rs lines
259-262). -/
def setSortBy (o : ResultOptions) (c : String) : ResultOptions :=
  { o with sort_by := some c }

/-- Embeds the builder method ResultOptions::order (src/types.rs lines
265-268). -/
def setOrder (o : ResultOptions) (ord : String) : ResultOptions :=
  { o with order := some ord }

/-- Embeds the builder method ResultOptions::columns (src/types.rs lines
271-274). -/
def setColumns (o : ResultOptions) (cs : List String) : ResultOptions :=
  { o with columns := some cs }

/-- Embeds ResultOptions::to_query_params (src/types.rs lines 277-300): one
pair pushed per set field, in the fixed source order limit, offset, sort_by,
order, columns (comma-joined), filters. -/
def to_query_params (o : ResultOptions) : List (String × String) :=
  (match o.limit with
   | some l => [("limit", toString l)]
   | none => []) ++
  (match o.offset with
   | some n => [("offset", toString n)]
   | none => []) ++
  (match o.sort_by with
   | some s => [("sort_by", s)]
   | none => []) ++
  (match o.order with
   | some s => [("order", s)]
   | none => []) ++
  (match o.columns with
   | some cs => [("columns", String.intercalate "," cs)]
   | none => []) ++
  (match o.filters with
   | some s => [("filters", s)]
   | none => [])

end ResultOptions

/-- Lookup of a query-parameter value by key in an encoded parameter list
(first occurrence). -/
def lookupParam (params : List (String × String)) (k : String) : Option String :=
  match params with
  | [] => none
  | (k', v) :: rest => if k' = k then some v else lookupParam rest k

/-- Opaque transport error from the reqwest collaborator, external to this
repository; only its presence as a payload matters to the embedding. -/
structure ReqwestError where
  msg : String
deriving DecidableEq

/-- Opaque parse error from the serde_json collaborator, external to this
repository. -/
structure SerdeJsonError where
  msg : String
deriving DecidableEq

/-- Errors of the client (src/error.rs, enum DuneError). -/
inductive DuneError where
  | Request (err : ReqwestError)
  | Api (message : String)
  | Parse (err : SerdeJsonError)
  | InvalidApiKey
  | ExecutionFailed (message : String)
  | Timeout (seconds : Nat)
  | Cancelled
deriving DecidableEq

/-- Discriminant of a DuneError: which of the seven kinds a value is. -/
def DuneError.kind : DuneError → Fin 7
  | DuneError.Request _ => 0
  | DuneError.Api _ => 1
  | DuneError.Parse _ => 2
  | DuneError.InvalidApiKey => 3
  | DuneError.ExecutionFailed _ => 4
  | DuneError.Timeout _ => 5
  | DuneError.Cancelled => 6

/-- One observed status poll: the service-reported state together with the
service-supplied error message used when that state is Failed. -/
structure StatusPoll where
  state : ExecutionState
  message : String
deriving DecidableEq

/-- Outcome of a tracking run over a finite sequence of observations. -/
inductive TrackOutcome where
  | success
  | failure (e : DuneError)
  | stillRunning
deriving DecidableEq

/-- Modelled from the spec: the lifecycle tracker of spec section 4.2 is not
among the given source files (only src/types.rs and src/error.rs are).
Following the spec, each poll observes the service-reported state; a
terminal state stops polling with the outcome determined by that state
(Completed gives success, Failed an ExecutionFailed error carrying the
service-supplied message, Cancelled a Cancelled error); a non-terminal
state waits and polls again. -/
def track : List StatusPoll → TrackOutcome
  | [] => TrackOutcome.stillRunning
  | p :: rest =>
    match p.state with
    | ExecutionState.Completed => TrackOutcome.success
    | ExecutionState.Failed =>
        TrackOutcome.failure (DuneError.ExecutionFailed p.message)
    | ExecutionState.Cancelled => TrackOutcome.failure DuneError.Cancelled
    | _ => track rest

/-- Inversion for decodeU64: it succeeds exactly on a JSON number. -/
theorem decodeU64_eq_some {j : Json} {n : Nat} :
    decodeU64 j = some n ↔ j = Json.num n := by
  cases j <;> simp [decodeU64]

/-- Inversion for decodeString: it succeeds exactly on a JSON string. -/
theorem decodeString_eq_some {j : Json} {s : String} :
    decodeString j = some s ↔ j = Json.str s := by
  cases j <;> simp [decodeString]

/-- C1: for every ExecutionState s, is_terminal s holds iff s is Completed,
Failed or Cancelled, and is_success s holds iff s is Completed. -/
theorem c1_terminal_and_success (s : ExecutionState) :
    (s.is_terminal = true ↔
      s = ExecutionState.Completed ∨ s = ExecutionState.Failed ∨
      s = ExecutionState.Cancelled)
    ∧ (s.is_success = true ↔ s = ExecutionState.Completed) := by
  cases s <;> simp [ExecutionState.is_terminal, ExecutionState.is_success]

/-- C4: each ExecutionState serializes to exactly its fixed wire tag, the
tag deserializes back to the same state, and a string deserializes to some
state only when it is that state's tag, so every string outside the five
tags fails to deserialize. -/
theorem c4_wire_tag_roundtrip :
    (ExecutionState.toWireTag ExecutionState.Pending = "QUERY_STATE_PENDING"
      ∧ ExecutionState.toWireTag ExecutionState.Executing = "QUERY_STATE_EXECUTING"
      ∧ ExecutionState.toWireTag ExecutionState.Completed = "QUERY_STATE_COMPLETED"
      ∧ ExecutionState.toWireTag ExecutionState.Failed = "QUERY_STATE_FAILED"
      ∧ ExecutionState.toWireTag ExecutionState.Cancelled = "QUERY_STATE_CANCELLED")
    ∧ (∀ s : ExecutionState,
        ExecutionState.fromWireTag (ExecutionState.toWireTag s) = some s)
    ∧ (∀ tag s, ExecutionState.fromWireTag tag = some s →
        tag = ExecutionState.toWireTag s) := by
  refine ⟨⟨rfl, rfl, rfl, rfl, rfl⟩, ?_, ?_⟩
  · intro s
    cases s <;> decide
  · intro tag s h
    unfold ExecutionState.fromWireTag at h
    split_ifs at h <;> simp_all [ExecutionState.toWireTag] <;> subst h <;> rfl

/-- C8: constructing and serializing a QueryParameter performs no
validation of the type tag: every string t is accepted and emitted verbatim
under the JSON key "type". -/
theorem c8_type_tag_verbatim (k t v : String) :
    (QueryParameter.mk k t v).serialize
      = [("key", Json.str k), ("type", Json.str t), ("value", Json.str v)]
    ∧ lookupField ((QueryParameter.mk k t v).serialize) "type"
        = some (Json.str t) := by
  refine ⟨rfl, ?_⟩
  simp [QueryParameter.serialize, lookupField]

/-- C9: ResultOptions::new is the Default value, every field is unset, and
encoding it yields the empty query-parameter list. -/
theorem c9_new_is_empty :
    ResultOptions.new = ResultOptions.defaultOptions
    ∧ ResultOptions.new =
        { limit := none, offset := none, sort_by := none, order := none,
          columns := none, filters := none }
    ∧ ResultOptions.new.to_query_params = [] :=
  ⟨rfl, rfl, rfl⟩

/-- C10: each ResultOptions builder method sets only its own field to some
of the given value and leaves every other field unchanged, and two builder
methods on distinct fields commute. -/
theorem c10_builder_frame_and_commute (o : ResultOptions) :
    (∀ l, (o.setLimit l).limit = some l ∧ (o.setLimit l).offset = o.offset
      ∧ (o.setLimit l).sort_by = o.sort_by ∧ (o.setLimit l).order = o.order
      ∧ (o.setLimit l).columns = o.columns ∧ (o.setLimit l).filters = o.filters)
    ∧ (∀ n, (o.setOffset n).offset = some n ∧ (o.setOffset n).limit = o.limit
      ∧ (o.setOffset n).sort_by = o.sort_by ∧ (o.setOffset n).order = o.order
      ∧ (o.setOffset n).columns = o.columns ∧ (o.setOffset n).filters = o.filters)
    ∧ (∀ c, (o.setSortBy c).sort_by = some c ∧ (o.setSortBy c).limit = o.limit
      ∧ (o.setSortBy c).offset = o.offset ∧ (o.setSortBy c).order = o.order
      ∧ (o.setSortBy c).columns = o.columns ∧ (o.setSortBy c).filters = o.filters)
    ∧ (∀ d, (o.setOrder d).order = some d ∧ (o.setOrder d).limit = o.limit
      ∧ (o.setOrder d).offset = o.offset ∧ (o.setOrder d).sort_by = o.sort_by
      ∧ (o.setOrder d).columns = o.columns ∧ (o.setOrder d).filters = o.filters)
    ∧ (∀ cs, (o.setColumns cs).columns = some cs ∧ (o.setColumns cs).limit = o.limit
      ∧ (o.setColumns cs).offset = o.offset ∧ (o.setColumns cs).sort_by = o.sort_by
      ∧ (o.setColumns cs).order = o.order ∧ (o.setColumns cs).filters = o.filters)
    ∧ (∀ l n, (o.setLimit l).setOffset n = (o.setOffset n).setLimit l)
    ∧ (∀ l c, (o.setLimit l).setSortBy c = (o.setSortBy c).setLimit l)
    ∧ (∀ l d, (o.setLimit l).setOrder d = (o.setOrder d).setLimit l)
    ∧ (∀ l cs, (o.setLimit l).setColumns cs = (o.setColumns cs).setLimit l)
    ∧ (∀ n c, (o.setOffset n).setSortBy c = (o.setSortBy c).setOffset n)
    ∧ (∀ n d, (o.setOffset n).setOrder d = (o.setOrder d).setOffset n)
    ∧ (∀ n cs, (o.setOffset n).setColumns cs = (o.setColumns cs).setOffset n)
    ∧ (∀ c d, (o.setSortBy c).setOrder d = (o.setOrder d).setSortBy c)
    ∧ (∀ c cs, (o.setSortBy c).setColumns cs = (o.setColumns cs).setSortBy c)
    ∧ (∀ d cs, (o.setOrder d).setColumns cs = (o.setColumns cs).setOrder d) := by
  refine ⟨?_, ?_, ?_, ?_, ?_, ?_, ?_, ?_, ?_, ?_, ?_, ?_, ?_, ?_, ?_⟩ <;>
    intros <;> first
      | rfl
      | exact ⟨rfl, rfl, rfl, rfl, rfl, rfl⟩

/-- C2: to_query_params emits exactly one key for each set field and none
for an unset field, in the fixed order limit, offset, sort_by, order,
columns, filters; the value emitted for each key is the field's value
(numbers printed in decimal, the column list comma-joined); and the
concrete options limit 10, offset 5, sort_by "ts", order "desc" with the
rest unset encode to exactly those four pairs in that order. -/
theorem c2_query_param_encoding (o : ResultOptions) :
    ((o.to_query_params).map Prod.fst
      = (if o.limit.isSome then ["limit"] else [])
        ++ (if o.offset.isSome then ["offset"] else [])
        ++ (if o.sort_by.isSome then ["sort_by"] else [])
        ++ (if o.order.isSome then ["order"] else [])
        ++ (if o.columns.isSome then ["columns"] else [])
        ++ (if o.filters.isSome then ["filters"] else []))
    ∧ lookupParam o.to_query_params "limit" = o.limit.map toString
    ∧ lookupParam o.to_query_params "offset" = o.offset.map toString
    ∧ lookupParam o.to_query_params "sort_by" = o.sort_by
    ∧ lookupParam o.to_query_params "order" = o.order
    ∧ lookupParam o.to_query_params "columns"
        = o.columns.map (String.intercalate ",")
    ∧ lookupParam o.to_query_params "filters" = o.filters
    ∧ (ResultOptions.mk (some 10) (some 5) (some "ts") (some "desc")
        none none).to_query_params
      = [("limit", "10"), ("offset", "5"), ("sort_by", "ts"),
         ("order", "desc")] := by
  obtain ⟨l, n, sb, od, cs, fl⟩ := o
  have hconc : (ResultOptions.mk (some 10) (some 5) (some "ts") (some "desc")
      none none).to_query_params
      = [("limit", "10"), ("offset", "5"), ("sort_by", "ts"),
         ("order", "desc")] := rfl
  refine ⟨?_, ?_, ?_, ?_, ?_, ?_, ?_, hconc⟩ <;>
    cases l <;> cases n <;> cases sb <;> cases od <;> cases cs <;> cases fl <;>
      simp [ResultOptions.to_query_params, lookupParam]

/-- C6: a DuneError value is exactly one of seven mutually exclusive kinds,
witnessed by its discriminant being a total function into seven values each
of which characterizes one constructor; Api and ExecutionFailed carry a
message string, Timeout carries the elapsed seconds as a natural number,
and InvalidApiKey and Cancelled carry nothing beyond the tag. -/
theorem c6_seven_error_kinds (e : DuneError) :
    (e.kind = 0 ↔ ∃ t, e = DuneError.Request t)
    ∧ (e.kind = 1 ↔ ∃ m, e = DuneError.Api m)
    ∧ (e.kind = 2 ↔ ∃ p, e = DuneError.Parse p)
    ∧ (e.kind = 3 ↔ e = DuneError.InvalidApiKey)
    ∧ (e.kind = 4 ↔ ∃ m, e = DuneError.ExecutionFailed m)
    ∧ (e.kind = 5 ↔ ∃ n, e = DuneError.Timeout n)
    ∧ (e.kind = 6 ↔ e = DuneError.Cancelled) := by
  cases e <;> simp [DuneError.kind]

/-- C7: in any tracking run, once a poll observes a terminal state the run's
outcome no longer depends on any later observation (polling stops at that
poll), and the outcome is determined by the terminal state: Completed gives
success, Failed gives an ExecutionFailed error carrying the
service-supplied message, and Cancelled gives a Cancelled error. -/
theorem c7_terminal_stops_tracking (pre : List StatusPoll) (p : StatusPoll)
    (rest rest' : List StatusPoll)
    (hpre : ∀ q ∈ pre, q.state.is_terminal = false)
    (hp : p.state.is_terminal = true) :
    track (pre ++ p :: rest) = track (pre ++ p :: rest')
    ∧ (p.state = ExecutionState.Completed →
        track (pre ++ p :: rest) = TrackOutcome.success)
    ∧ (p.state = ExecutionState.Failed →
        track (pre ++ p :: rest)
          = TrackOutcome.failure (DuneError.ExecutionFailed p.message))
    ∧ (p.state = ExecutionState.Cancelled →
        track (pre ++ p :: rest) = TrackOutcome.failure DuneError.Cancelled) := by
  induction pre with
  | nil =>
    obtain ⟨ps, msg⟩ := p
    cases ps <;> simp_all [track, ExecutionState.is_terminal]
  | cons q qs ih =>
    have hq : q.state.is_terminal = false := hpre q (List.mem_cons_self q qs)
    have hqs : ∀ r ∈ qs, r.state.is_terminal = false := fun r hr =>
      hpre r (List.mem_cons_of_mem q hr)
    have step : ∀ l : List StatusPoll, track (q :: l) = track l := by
      intro l
      obtain ⟨qst, qmsg⟩ := q
      cases qst <;> simp_all [track, ExecutionState.is_terminal]
    rw [List.cons_append, step, List.cons_append, step]
    exact ih hqs

/-- Witness for C7 at a concrete run: two non-terminal polls, then
Completed; a later Failed observation does not change the outcome, and the
outcome is success. -/
theorem c7_witness :
    track ([⟨ExecutionState.Pending, ""⟩, ⟨ExecutionState.Executing, ""⟩]
        ++ ⟨ExecutionState.Completed, ""⟩ :: [⟨ExecutionState.Failed, "x"⟩])
      = track ([⟨ExecutionState.Pending, ""⟩, ⟨ExecutionState.Executing, ""⟩]
        ++ ⟨ExecutionState.Completed, ""⟩ :: [])
    ∧ track ([⟨ExecutionState.Pending, ""⟩, ⟨ExecutionState.Executing, ""⟩]
        ++ ⟨ExecutionState.Completed, ""⟩ :: [⟨ExecutionState.Failed, "x"⟩])
        = TrackOutcome.success :=
  ⟨(c7_terminal_stops_tracking
      [⟨ExecutionState.Pending, ""⟩, ⟨ExecutionState.Executing, ""⟩]
      ⟨ExecutionState.Completed, ""⟩ [⟨ExecutionState.Failed, "x"⟩] []
      (by decide) (by decide)).1,
   (c7_terminal_stops_tracking
      [⟨ExecutionState.Pending, ""⟩, ⟨ExecutionState.Executing, ""⟩]
      ⟨ExecutionState.Completed, ""⟩ [⟨ExecutionState.Failed, "x"⟩] []
      (by decide) (by decide)).2.1 rfl⟩

/-- C3 counterexample: a result payload with total_row_count 100 and
datapoint_count 200 decodes successfully, and the decoded ResultMetadata
violates datapoint_count less-or-equal total_row_count, so decoding does
not guarantee the invariant. -/
theorem c3_counterexample :
    decodeResultMetadata (Json.obj
      [("column_names", Json.arr []),
       ("total_row_count", Json.num 100),
       ("datapoint_count", Json.num 200)])
      = some ⟨[], [], 100, 200, none, none, none⟩
    ∧ ¬ ((ResultMetadata.mk [] [] 100 200 none none none).datapoint_count
          ≤ (ResultMetadata.mk [] [] 100 200 none none none).total_row_count) :=
  ⟨rfl, by decide⟩

/-- C3 (amended): decoding a result payload enforces no inequality between
the counts; it copies both counts verbatim from the payload, so the decoded
value satisfies datapoint_count less-or-equal total_row_count exactly when
the payload's two numbers do (as in the spec's example payload with
total_row_count 100 and datapoint_count 10). -/
theorem c3_decode_copies_counts (fs : List (String × Json)) (m : ResultMetadata)
    (h : decodeResultMetadata (Json.obj fs) = some m) :
    lookupField fs "total_row_count" = some (Json.num m.total_row_count)
    ∧ lookupField fs "datapoint_count" = some (Json.num m.datapoint_count)
    ∧ (m.datapoint_count ≤ m.total_row_count ↔
        ∃ t d, lookupField fs "total_row_count" = some (Json.num t)
          ∧ lookupField fs "datapoint_count" = some (Json.num d) ∧ d ≤ t) := by
  simp only [decodeResultMetadata, Option.bind_eq_bind, Option.bind_eq_some,
    Option.some.injEq] at h
  obtain ⟨names, ⟨jn, hjn, hdn⟩, types, hty, total, ⟨jt, hjt, hdt⟩,
    dp, ⟨jd, hjd, hdd⟩, bytes, hb, ptm, hp, etm, he, hm⟩ := h
  rw [decodeU64_eq_some] at hdt hdd
  subst hdt hdd hm
  refine ⟨hjt, hjd, ?_⟩
  constructor
  · intro hle
    exact ⟨total, dp, hjt, hjd, hle⟩
  · rintro ⟨t, d, ht, hd, hle⟩
    rw [hjt] at ht
    rw [hjd] at hd
    simp only [Option.some.injEq, Json.num.injEq] at ht hd
    show dp ≤ total
    omega

/-- Witness for C3 (amended) at the spec's example payload: total_row_count
100 and datapoint_count 10 are copied verbatim and satisfy the invariant. -/
theorem c3_decode_copies_counts_witness :
    lookupField [("column_names", Json.arr []),
      ("total_row_count", Json.num 100), ("datapoint_count", Json.num 10)]
      "total_row_count"
      = some (Json.num (ResultMetadata.mk [] [] 100 10 none none none).total_row_count)
    ∧ lookupField [("column_names", Json.arr []),
      ("total_row_count", Json.num 100), ("datapoint_count", Json.num 10)]
      "datapoint_count"
      = some (Json.num (ResultMetadata.mk [] [] 100 10 none none none).datapoint_count)
    ∧ ((ResultMetadata.mk [] [] 100 10 none none none).datapoint_count
        ≤ (ResultMetadata.mk [] [] 100 10 none none none).total_row_count ↔
        ∃ t d, lookupField [("column_names", Json.arr []),
            ("total_row_count", Json.num 100), ("datapoint_count", Json.num 10)]
            "total_row_count" = some (Json.num t)
          ∧ lookupField [("column_names", Json.arr []),
            ("total_row_count", Json.num 100), ("datapoint_count", Json.num 10)]
            "datapoint_count" = some (Json.num d) ∧ d ≤ t) :=
  c3_decode_copies_counts
    [("column_names", Json.arr []),
     ("total_row_count", Json.num 100), ("datapoint_count", Json.num 10)]
    (ResultMetadata.mk [] [] 100 10 none none none) rfl

/-- C5 counterexample: a result payload without the column_types field and
the same payload with an explicitly empty column_types list decode to the
very same ResultMetadata value, so the two are not distinguishable. -/
theorem c5_counterexample :
    decodeResultMetadata (Json.obj
      [("column_names", Json.arr [Json.str "a"]),
       ("total_row_count", Json.num 1),
       ("datapoint_count", Json.num 1)])
      = decodeResultMetadata (Json.obj
      [("column_names", Json.arr [Json.str "a"]),
       ("column_types", Json.arr []),
       ("total_row_count", Json.num 1),
       ("datapoint_count", Json.num 1)])
    ∧ decodeResultMetadata (Json.obj
      [("column_names", Json.arr [Json.str "a"]),
       ("total_row_count", Json.num 1),
       ("datapoint_count", Json.num 1)])
      = some ⟨["a"], [], 1, 1, none, none, none⟩ :=
  ⟨rfl, rfl⟩

/-- C5 (amended): the timestamps and the queue position are explicit
optional values - an absent field decodes to none and a present numeric or
string field to some of its value, so absence stays distinguishable from a
present zero or empty value - but column_types is a defaulted list, not an
optional value: a payload without it decodes to the empty list, the same
value an explicitly empty list decodes to. -/
theorem c5_optional_field_model :
    (∀ fs r, decodeExecutionStatusResponse (Json.obj fs) = some r →
      ((lookupField fs "queue_position" = none → r.queue_position = none)
        ∧ (∀ n, lookupField fs "queue_position" = some (Json.num n) →
            r.queue_position = some n)
        ∧ (lookupField fs "submitted_at" = none → r.submitted_at = none)
        ∧ (∀ s, lookupField fs "submitted_at" = some (Json.str s) →
            r.submitted_at = some s)
        ∧ (lookupField fs "execution_started_at" = none →
            r.execution_started_at = none)
        ∧ (∀ s, lookupField fs "execution_started_at" = some (Json.str s) →
            r.execution_started_at = some s)
        ∧ (lookupField fs "execution_ended_at" = none →
            r.execution_ended_at = none)
        ∧ (∀ s, lookupField fs "execution_ended_at" = some (Json.str s) →
            r.execution_ended_at = some s)
        ∧ (lookupField fs "expires_at" = none → r.expires_at = none)
        ∧ (∀ s, lookupField fs "expires_at" = some (Json.str s) →
            r.expires_at = some s)))
    ∧ (∀ fs m, decodeResultMetadata (Json.obj fs) = some m →
        ((lookupField fs "column_types" = none → m.column_types = [])
          ∧ (lookupField fs "column_types" = some (Json.arr []) →
              m.column_types = []))) := by
  constructor
  · intro fs r h
    simp only [decodeExecutionStatusResponse, Option.bind_eq_bind,
      Option.bind_eq_some, Option.some.injEq] at h
    obtain ⟨eid, ⟨je, hje, hde⟩, qid, hqid, st, ⟨js, hjs, hds⟩,
      sub, hsub, est, hest, een, heen, expAt, hexp, qp, hqp, hr⟩ := h
    subst hr
    refine ⟨?_, ?_, ?_, ?_, ?_, ?_, ?_, ?_, ?_, ?_⟩
    · intro hnone
      rw [hnone] at hqp
      simpa [decodeOptU64] using hqp.symm
    · intro n hn
      rw [hn] at hqp
      simpa [decodeOptU64] using hqp.symm
    · intro hnone
      rw [hnone] at hsub
      simpa [decodeOptString] using hsub.symm
    · intro s hs
      rw [hs] at hsub
      simpa [decodeOptString] using hsub.symm
    · intro hnone
      rw [hnone] at hest
      simpa [decodeOptString] using hest.symm
    · intro s hs
      rw [hs] at hest
      simpa [decodeOptString] using hest.symm
    · intro hnone
      rw [hnone] at heen
      simpa [decodeOptString] using heen.symm
    · intro s hs
      rw [hs] at heen
      simpa [decodeOptString] using heen.symm
    · intro hnone
      rw [hnone] at hexp
      simpa [decodeOptString] using hexp.symm
    · intro s hs
      rw [hs] at hexp
      simpa [decodeOptString] using hexp.symm
  · intro fs m h
    simp only [decodeResultMetadata, Option.bind_eq_bind, Option.bind_eq_some,
      Option.some.injEq] at h
    obtain ⟨names, ⟨jn, hjn, hdn⟩, types, hty, total, ⟨jt, hjt, hdt⟩,
      dp, ⟨jd, hjd, hdd⟩, bytes, hb, ptm, hp, etm, he, hm⟩ := h
    subst hm
    constructor
    · intro hnone
      rw [hnone] at hty
      simpa [decodeDefaultStringList] using hty.symm
    · intro harr
      rw [harr] at hty
      have hred : decodeDefaultStringList (some (Json.arr []))
          = some ([] : List String) := rfl
      rw [hred] at hty
      simpa using hty.symm

end Arrakis
